import Mathlib

/-!
A verification development for a small library of ANSI/VT100 terminal
escape-sequence constants and formatting helpers (Go package `escapes`,
file `escapes.go`).  Every function of the package is a pure string
formatter; we embed each one as a Lean function over `Int` (Go `int`),
`String` (Go `string`) and `List Nat` (Go `[]byte`, each entry a byte
value), and prove the stated properties about the exact output strings.
-/

namespace Escapes

/-- Embedding of Go `strconv.Itoa`: the shortest decimal representation of
an integer, with a leading minus sign exactly when the integer is negative. -/
def itoa (n : Int) : String :=
  if n < 0 then "-" ++ Nat.repr (-n).toNat else Nat.repr n.toNat

/-- `Esc = "\u001B["`, the Control Sequence Introducer (CSI) token. -/
def Esc : String := "\u001B["

/-- `Osc = "\u001B]"`, the Operating System Command token. -/
def Osc : String := "\u001B]"

/-- `Bel = "\u0007"`, the bell character used as an OSC terminator. -/
def Bel : String := "\u0007"

def CursorUp : String := Esc ++ "A"

def CursorDown : String := Esc ++ "B"

def CursorForward : String := Esc ++ "C"

def CursorBackward : String := Esc ++ "D"

def CursorBlinkEnable : String := Esc ++ "?12h"

def CursorBlinkDisable : String := Esc ++ "?12I"

def CursorShow : String := Esc ++ "?25h"

def CursorHide : String := Esc ++ "?25l"

def ScrollUpConst : String := Esc ++ "S"

def ScrollDownConst : String := Esc ++ "T"

def ColorReset : String := Esc ++ "0m"

def ClearScreen : String := "\u001Bc"

/-- `CursorPosX(x)` from the source: `Esc + strconv.Itoa(x+1) + "G"`. -/
def CursorPosX (x : Int) : String :=
  Esc ++ itoa (x + 1) ++ "G"

/-- `CursorPosY(y)` from the source: `Esc + strconv.Itoa(y+1) + "d"`. -/
def CursorPosY (y : Int) : String :=
  Esc ++ itoa (y + 1) ++ "d"

/-- `CursorPos(x, y)` from the source:
`Esc + strconv.Itoa(y+1) + ";" + strconv.Itoa(x+1) + "H"`. -/
def CursorPos (x y : Int) : String :=
  Esc ++ itoa (y + 1) ++ ";" ++ itoa (x + 1) ++ "H"

/-- `CursorMove(x, y)` from the source: starts from the empty string,
conditionally appends a horizontal chunk, then conditionally appends a
vertical chunk, mirroring the two `if/else if` statements of the Go code.
This reading uses unbounded integers; `CursorMoveInt64` below is the
bit-precise embedding whose unary negation wraps at the 64-bit boundary
as Go's fixed-width `int` does, and the two agree on every input above
the 64-bit minimum (`cursorMoveInt64_eq_cursorMove`). -/
def CursorMove (x y : Int) : String :=
  let s : String :=
    if x < 0 then Esc ++ itoa (-x) ++ "D"
    else if x > 0 then Esc ++ itoa x ++ "C"
    else ""
  let s : String :=
    if y < 0 then s ++ (Esc ++ itoa (-y) ++ "A")
    else if y > 0 then s ++ (Esc ++ itoa y ++ "B")
    else s
  s

/-- `Scroll(n)` from the source.  This reading uses unbounded integers;
`ScrollInt64` below is the bit-precise embedding whose unary negation wraps
at the 64-bit boundary as Go's fixed-width `int` does, and the two agree on
every input above the 64-bit minimum (`scrollInt64_eq_scroll`). -/
def Scroll (n : Int) : String :=
  if n > 0 then Esc ++ itoa n ++ "S"
  else if n < 0 then Esc ++ itoa (-n) ++ "T"
  else ""

/-- The 64-bit minimum integer, Go's `math.MinInt` on a 64-bit platform. -/
def int64Min : Int := -9223372036854775808

/-- Two's-complement wrap of an integer into the signed 64-bit range,
the effect of every Go `int` arithmetic operation. -/
def wrap64 (n : Int) : Int :=
  (n + 9223372036854775808) % 18446744073709551616 - 9223372036854775808

/-- Bit-precise `Scroll(n)` from the source: identical to `Scroll` except
that the unary negation `-n` of the Go code is a fixed-width 64-bit
negation, so it wraps (explicitly, via `wrap64`) at `int64Min`. -/
def ScrollInt64 (n : Int) : String :=
  if n > 0 then Esc ++ itoa n ++ "S"
  else if n < 0 then Esc ++ itoa (wrap64 (-n)) ++ "T"
  else ""

/-- Bit-precise `CursorMove(x, y)` from the source: identical to
`CursorMove` except that the unary negations `-x` and `-y` of the Go code
are fixed-width 64-bit negations, so they wrap (explicitly, via `wrap64`)
at `int64Min`. -/
def CursorMoveInt64 (x y : Int) : String :=
  let s : String :=
    if x < 0 then Esc ++ itoa (wrap64 (-x)) ++ "D"
    else if x > 0 then Esc ++ itoa x ++ "C"
    else ""
  let s : String :=
    if y < 0 then s ++ (Esc ++ itoa (wrap64 (-y)) ++ "A")
    else if y > 0 then s ++ (Esc ++ itoa y ++ "B")
    else s
  s

/-- `TextInsertChars(n)` from the source. -/
def TextInsertChars (n : Int) : String :=
  Esc ++ itoa n ++ "@"

/-- `TextDeleteChars(n)` from the source. -/
def TextDeleteChars (n : Int) : String :=
  Esc ++ itoa n ++ "P"

/-- `TextEraseChars(n)` from the source. -/
def TextEraseChars (n : Int) : String :=
  Esc ++ itoa n ++ "X"

/-- `TextInsertLines(n)` from the source. -/
def TextInsertLines (n : Int) : String :=
  Esc ++ itoa n ++ "L"

/-- `TextDeleteLines(n)` from the source. -/
def TextDeleteLines (n : Int) : String :=
  Esc ++ itoa n ++ "M"

/-- `Link(url, text)` from the source. -/
def Link (url text : String) : String :=
  Osc ++ "8;;" ++ url ++ Bel ++ text ++ Osc ++ "8;;" ++ Bel

/-- The standard base64 alphabet (RFC 4648 section 4), as used by Go's
`base64.StdEncoding`. -/
def b64Alphabet : List Char :=
  "ABCDEFGHIJKLMNOPQRSTUVWXYZabcdefghijklmnopqrstuvwxyz0123456789+/".toList

/-- The base64 character for a 6-bit value. -/
def b64Char (n : Nat) : Char := b64Alphabet.getD n 'A'

/-- Embedding of Go `base64.StdEncoding.EncodeToString`: standard base64
with `=` padding and no line wrapping, three input bytes per four output
characters. -/
def base64Encode : List Nat → String
  | [] => ""
  | [a] =>
      String.mk [b64Char (a / 4 % 64), b64Char (a % 4 * 16)] ++ "=="
  | [a, b] =>
      String.mk [b64Char (a / 4 % 64), b64Char (a % 4 * 16 + b / 16 % 16),
        b64Char (b % 16 * 4)] ++ "="
  | a :: b :: c :: rest =>
      String.mk [b64Char (a / 4 % 64), b64Char (a % 4 * 16 + b / 16 % 16),
        b64Char (b % 16 * 4 + c / 64 % 4), b64Char (c % 64)] ++
        base64Encode rest

/-- `ImageWidthHeight(img, height, width, preserveAspectRatio)` from the
source: builds `s` incrementally with three conditional appends, then
returns `s + ":" + base64(img) + Bel`.  Note the source appends the
`width=` field from the `height` argument and the `height=` field from
the `width` argument. -/
def ImageWidthHeight (img : List Nat) (height width : Int)
    (preserveAspectRatio : Bool) : String :=
  let s : String := Osc ++ "1337;File=inline=1"
  let s : String := if height > 0 then s ++ (";width=" ++ itoa height) else s
  let s : String := if width > 0 then s ++ (";height=" ++ itoa width) else s
  let s : String := if !preserveAspectRatio then s ++ ";preserveAspectRatio=0" else s
  s ++ ":" ++ base64Encode img ++ Bel

/-- `Image(img)` from the source. -/
def Image (img : List Nat) : String :=
  ImageWidthHeight img 0 0 true

/-- `SetCwd(dir)` from the source. -/
def SetCwd (dir : String) : String :=
  Osc ++ "50;CurrentDir=" ++ dir ++ Bel

/-! ### Helper lemmas about `itoa` -/

theorem itoa_of_nonneg {n : Int} (h : 0 ≤ n) : itoa n = Nat.repr n.toNat := by
  unfold itoa
  rw [if_neg (by omega)]

theorem itoa_eq_repr_natAbs_of_nonneg {n : Int} (h : 0 ≤ n) :
    itoa n = Nat.repr n.natAbs := by
  rw [itoa_of_nonneg h, show n.toNat = n.natAbs by omega]

theorem itoa_neg_eq_repr_natAbs {n : Int} (h : n < 0) :
    itoa (-n) = Nat.repr n.natAbs := by
  rw [itoa_of_nonneg (by omega), show (-n).toNat = n.natAbs by omega]

/-! ### Helper lemmas about the 64-bit wrap -/

theorem wrap64_eq_self {m : Int} (h1 : -9223372036854775808 ≤ m)
    (h2 : m < 9223372036854775808) : wrap64 m = m := by
  unfold wrap64
  omega

/-- On every input above the 64-bit minimum, the negation of the Go code
does not wrap, so the bit-precise `ScrollInt64` agrees with `Scroll`. -/
theorem scrollInt64_eq_scroll {n : Int} (h : int64Min < n) :
    ScrollInt64 n = Scroll n := by
  have h' : -9223372036854775808 < n := h
  unfold ScrollInt64 Scroll
  by_cases h1 : n > 0
  · rw [if_pos h1, if_pos h1]
  · by_cases h2 : n < 0
    · rw [if_neg h1, if_neg h1, if_pos h2, if_pos h2,
        wrap64_eq_self (by omega) (by omega)]
    · rw [if_neg h1, if_neg h1, if_neg h2, if_neg h2]

/-- On every pair of inputs above the 64-bit minimum, the negations of the
Go code do not wrap, so `CursorMoveInt64` agrees with `CursorMove`. -/
theorem cursorMoveInt64_eq_cursorMove {x y : Int} (hx : int64Min < x)
    (hy : int64Min < y) : CursorMoveInt64 x y = CursorMove x y := by
  have hx' : -9223372036854775808 < x := hx
  have hy' : -9223372036854775808 < y := hy
  have ex : (if x < 0 then Esc ++ itoa (wrap64 (-x)) ++ "D"
      else if x > 0 then Esc ++ itoa x ++ "C" else "") =
      (if x < 0 then Esc ++ itoa (-x) ++ "D"
      else if x > 0 then Esc ++ itoa x ++ "C" else "") := by
    by_cases h1 : x < 0
    · rw [if_pos h1, if_pos h1, wrap64_eq_self (by omega) (by omega)]
    · rw [if_neg h1, if_neg h1]
  have ey : ∀ s : String,
      (if y < 0 then s ++ (Esc ++ itoa (wrap64 (-y)) ++ "A")
      else if y > 0 then s ++ (Esc ++ itoa y ++ "B") else s) =
      (if y < 0 then s ++ (Esc ++ itoa (-y) ++ "A")
      else if y > 0 then s ++ (Esc ++ itoa y ++ "B") else s) := by
    intro s
    by_cases h3 : y < 0
    · rw [if_pos h3, if_pos h3, wrap64_eq_self (by omega) (by omega)]
    · rw [if_neg h3, if_neg h3]
  simp only [CursorMoveInt64, CursorMove]
  rw [ey, ex]

/-! ### Claim theorems -/

/-- Claim C1: for every byte slice `img`, integers `height` and `width`, and
boolean `p`, `ImageWidthHeight img height width p` is the OSC inline-image
header `"1337;File=inline=1"`, then `";width=" ++ decimal height` exactly when
the height argument is positive, then `";height=" ++ decimal width` exactly
when the width argument is positive (the height argument feeds the emitted
`width=` field and vice versa), then `";preserveAspectRatio=0"` exactly when
`p` is false, and finally `":"` plus the standard padded base64 of `img` plus
the bell terminator. -/
theorem imageWidthHeight_fields (img : List Nat) (height width : Int)
    (p : Bool) :
    ImageWidthHeight img height width p =
      Osc ++ "1337;File=inline=1"
        ++ (if 0 < height then ";width=" ++ itoa height else "")
        ++ (if 0 < width then ";height=" ++ itoa width else "")
        ++ (if p = false then ";preserveAspectRatio=0" else "")
        ++ ":" ++ base64Encode img ++ Bel := by
  unfold ImageWidthHeight
  rcases p <;> by_cases h1 : 0 < height <;> by_cases h2 : 0 < width <;>
    simp [h1, h2, gt_iff_lt, String.append_assoc]

/-- Claim C2: `CursorPos x y` emits the row (from the second argument, plus
one) before the column (from the first argument, plus one) with suffix `"H"`,
while `CursorPosX` and `CursorPosY` emit their single 1-based coordinate with
suffixes `"G"` and `"d"` respectively. -/
theorem cursorPos_wire_format (x y : Int) :
    CursorPos x y = Esc ++ itoa (y + 1) ++ ";" ++ itoa (x + 1) ++ "H" ∧
    CursorPosX x = Esc ++ itoa (x + 1) ++ "G" ∧
    CursorPosY y = Esc ++ itoa (y + 1) ++ "d" :=
  ⟨rfl, rfl, rfl⟩

/-- Claim C3: `CursorMove dx dy` is a horizontal chunk (present exactly when
`dx` is nonzero, `"D"` with magnitude `-dx` for negative `dx`, `"C"` with
`dx` for positive) followed by a vertical chunk (present exactly when `dy` is
nonzero, `"A"` for negative, `"B"` for positive), and `CursorMove 0 0` is the
empty string. -/
theorem cursorMove_components (dx dy : Int) :
    CursorMove dx dy =
      (if dx < 0 then Esc ++ itoa (-dx) ++ "D"
        else if 0 < dx then Esc ++ itoa dx ++ "C" else "")
      ++ (if dy < 0 then Esc ++ itoa (-dy) ++ "A"
          else if 0 < dy then Esc ++ itoa dy ++ "B" else "") ∧
    CursorMove 0 0 = "" := by
  refine ⟨?_, rfl⟩
  unfold CursorMove
  by_cases h1 : dx < 0 <;> by_cases h2 : 0 < dx <;>
    by_cases h3 : dy < 0 <;> by_cases h4 : 0 < dy <;>
      simp [h1, h2, h3, h4, gt_iff_lt]

/-- Claim C4: `Scroll n` is `Esc ++ decimal n ++ "S"` for positive `n`,
`Esc ++ decimal (-n) ++ "T"` for negative `n`, and the empty string for
`n = 0`. -/
theorem scroll_cases (n : Int) :
    (0 < n → Scroll n = Esc ++ itoa n ++ "S") ∧
    (n < 0 → Scroll n = Esc ++ itoa (-n) ++ "T") ∧
    (n = 0 → Scroll n = "") := by
  refine ⟨fun h => ?_, fun h => ?_, fun h => ?_⟩
  · unfold Scroll
    rw [if_pos h]
  · unfold Scroll
    rw [if_neg (by omega), if_pos h]
  · unfold Scroll
    rw [if_neg (by omega), if_neg (by omega)]

/-- Claim C4 witness: the three cases of `scroll_cases` at `n = 5`, `n = -5`
and `n = 0`. -/
theorem scroll_cases_witness :
    Scroll 5 = Esc ++ itoa 5 ++ "S" ∧
    Scroll (-5) = Esc ++ itoa (-(-5)) ++ "T" ∧
    Scroll 0 = "" :=
  ⟨(scroll_cases 5).1 (by decide), (scroll_cases (-5)).2.1 (by decide),
    (scroll_cases 0).2.2 rfl⟩

/-- Claim C5 counterexample: at the 64-bit minimum integer (Go's
`math.MinInt`), the fixed-width negation of the source wraps back to the
minimum itself, so the bit-precise `ScrollInt64` and `CursorMoveInt64`
interpolate the signed decimal `-9223372036854775808` — the emitted digit
string carries a minus sign, refuting the claim as stated. -/
theorem numeric_param_minus_sign_at_int64Min :
    ScrollInt64 (-9223372036854775808) =
      Esc ++ ("-" ++ Nat.repr 9223372036854775808) ++ "T" ∧
    '-' ∈ (ScrollInt64 (-9223372036854775808)).data ∧
    CursorMoveInt64 (-9223372036854775808) 0 =
      Esc ++ ("-" ++ Nat.repr 9223372036854775808) ++ "D" := by
  refine ⟨?_, ?_, ?_⟩ <;> decide

/-- Claim C5, amended: for every integer input to `Scroll` and `CursorMove`
strictly above the 64-bit minimum `int64Min` (where the fixed-width
negation of the source does not wrap), every numeric parameter interpolated
into the output is `Nat.repr` of a natural number — the absolute value of
the argument — i.e. the shortest unsigned decimal representation, with no
minus sign, no sign for positive values, and no padding.  At `int64Min`
itself the negation wraps and the emitted parameter carries a minus sign
(see the counterexample). -/
theorem numeric_params_unsigned_decimal_amended (n x y : Int)
    (hn : int64Min < n) (hx : int64Min < x) (hy : int64Min < y) :
    ScrollInt64 n =
      (if n = 0 then ""
        else Esc ++ Nat.repr n.natAbs ++ (if 0 < n then "S" else "T")) ∧
    CursorMoveInt64 x y =
      (if x = 0 then ""
        else Esc ++ Nat.repr x.natAbs ++ (if 0 < x then "C" else "D"))
      ++ (if y = 0 then ""
          else Esc ++ Nat.repr y.natAbs ++ (if 0 < y then "B" else "A")) := by
  have hn' : -9223372036854775808 < n := hn
  have hx' : -9223372036854775808 < x := hx
  have hy' : -9223372036854775808 < y := hy
  constructor
  · unfold ScrollInt64
    rcases lt_trichotomy n 0 with h | h | h
    · rw [if_neg (by omega), if_pos h, wrap64_eq_self (by omega) (by omega),
        itoa_neg_eq_repr_natAbs h, if_neg (by omega), if_neg (by omega)]
    · simp [h]
    · rw [if_pos h, if_neg (by omega), if_pos h,
        itoa_eq_repr_natAbs_of_nonneg (by omega)]
  · have hcx : (if x < 0 then Esc ++ itoa (wrap64 (-x)) ++ "D"
        else if x > 0 then Esc ++ itoa x ++ "C" else "") =
        (if x = 0 then ""
          else Esc ++ Nat.repr x.natAbs ++ (if 0 < x then "C" else "D")) := by
      rcases lt_trichotomy x 0 with h | h | h
      · rw [if_pos h, wrap64_eq_self (by omega) (by omega),
          itoa_neg_eq_repr_natAbs h, if_neg (by omega), if_neg (by omega)]
      · simp [h]
      · rw [if_neg (by omega), if_pos h, if_neg (by omega), if_pos h,
          itoa_eq_repr_natAbs_of_nonneg (by omega)]
    have hcy : ∀ s : String,
        (if y < 0 then s ++ (Esc ++ itoa (wrap64 (-y)) ++ "A")
        else if y > 0 then s ++ (Esc ++ itoa y ++ "B") else s) =
        s ++ (if y = 0 then ""
          else Esc ++ Nat.repr y.natAbs ++ (if 0 < y then "B" else "A")) := by
      intro s
      rcases lt_trichotomy y 0 with h | h | h
      · rw [if_pos h, wrap64_eq_self (by omega) (by omega),
          itoa_neg_eq_repr_natAbs h, if_neg (by omega), if_neg (by omega),
          String.append_assoc]
      · simp [h]
      · rw [if_neg (by omega), if_pos h, if_neg (by omega), if_pos h,
          itoa_eq_repr_natAbs_of_nonneg (by omega), String.append_assoc]
    simp only [CursorMoveInt64]
    rw [hcy, hcx]

/-- Claim C5 witness: the amended theorem applied at `n = -5`, `x = -3`,
`y = 7`, all above `int64Min`, with the unsigned decimal parameters
evaluated. -/
theorem numeric_params_unsigned_decimal_amended_witness :
    ScrollInt64 (-5) = Esc ++ Nat.repr 5 ++ "T" ∧
    CursorMoveInt64 (-3) 7 =
      (Esc ++ Nat.repr 3 ++ "D") ++ (Esc ++ Nat.repr 7 ++ "B") := by
  have h := numeric_params_unsigned_decimal_amended (-5) (-3) 7
    (by decide) (by decide) (by decide)
  exact ⟨by rw [h.1]; decide, by rw [h.2]; decide⟩

/-- Claim C6: the five text-edit helpers each emit
`Esc ++ decimal n ++ suffix` for every integer `n` (negative and zero values
pass through with no validation), with suffix letters `"@"`, `"P"`, `"X"`,
`"L"`, `"M"` respectively. -/
theorem textEdit_format (n : Int) :
    TextInsertChars n = Esc ++ itoa n ++ "@" ∧
    TextDeleteChars n = Esc ++ itoa n ++ "P" ∧
    TextEraseChars n = Esc ++ itoa n ++ "X" ∧
    TextInsertLines n = Esc ++ itoa n ++ "L" ∧
    TextDeleteLines n = Esc ++ itoa n ++ "M" :=
  ⟨rfl, rfl, rfl, rfl, rfl⟩

/-- Claim C7: `Image img` delegates to the full form with both dimensions at
the sentinel value `0` and aspect-ratio preservation enabled. -/
theorem image_delegates (img : List Nat) :
    Image img = ImageWidthHeight img 0 0 true :=
  rfl

/-- Claim C8: for all strings `url` and `text` (no escaping or validation),
`Link url text` is the OSC 8 hyperlink envelope with the bell token as
terminator both times. -/
theorem link_envelope (url text : String) :
    Link url text = Osc ++ "8;;" ++ url ++ Bel ++ text ++ Osc ++ "8;;" ++ Bel :=
  rfl

/-- Claim C9: `CursorBlinkDisable` is `Esc ++ "?12I"` with an uppercase final
byte `I`, differing in case from the final byte `h` of its paired
`CursorBlinkEnable = Esc ++ "?12h"`, and `ClearScreen` is exactly the two
bytes ESC (0x1B) then the literal character `c`, whose second character is
not the `[` of the CSI token. -/
theorem literal_constants :
    CursorBlinkDisable = Esc ++ "?12I" ∧
    CursorBlinkDisable.data.getLast? = some 'I' ∧
    CursorBlinkEnable = Esc ++ "?12h" ∧
    CursorBlinkEnable.data.getLast? = some 'h' ∧
    ClearScreen = String.mk [Char.ofNat 27, 'c'] ∧
    ClearScreen.data.take 2 ≠ Esc.data := by
  refine ⟨rfl, by decide, rfl, by decide, by decide, by decide⟩

/-- Claim C10: a combined relative move decomposes into its two single-axis
moves: `CursorMove x y = CursorMove x 0 ++ CursorMove 0 y`. -/
theorem cursorMove_decomposition (x y : Int) :
    CursorMove x y = CursorMove x 0 ++ CursorMove 0 y := by
  unfold CursorMove
  by_cases h1 : x < 0 <;> by_cases h2 : 0 < x <;>
    by_cases h3 : y < 0 <;> by_cases h4 : 0 < y <;>
      simp [h1, h2, h3, h4, gt_iff_lt]

end Escapes
